import Mathlib

/-!
Verification of `tg2md.py`, the Telegram-export-to-Obsidian converter.

The Python source is embedded shallowly: each Python function becomes a Lean
definition of the same name.  Python strings are Lean `String`s; Python's
`str.split`, `str.strip`, `str.count`, `str.startswith` and `str.endswith`
are modelled by executable helpers defined below on the underlying character
lists; `dict` records become structures with `Option` fields for the optional
keys; a Python function that can fall off the end and return `None` returns
an `Option String`.
-/

namespace Tg2md

/-- Python's whitespace test (`str.isspace` on a single character): ASCII
whitespace, the C1 file/group/record/unit separators, NEL, and the Unicode
space separators.  This is the character class removed by `str.strip()`. -/
def isPySpace (c : Char) : Bool :=
  let n := c.toNat
  (decide (9 ≤ n) && decide (n ≤ 13)) || (decide (28 ≤ n) && decide (n ≤ 31)) ||
  n == 32 || n == 133 || n == 160 || n == 5760 ||
  (decide (8192 ≤ n) && decide (n ≤ 8202)) ||
  n == 8232 || n == 8233 || n == 8239 || n == 8287 || n == 12288

/-- Python `str.strip()`: remove leading and trailing whitespace. -/
def pyStrip (s : String) : String :=
  String.mk (((s.data.dropWhile isPySpace).reverse.dropWhile isPySpace).reverse)

/-- Python `str.startswith(p)`. -/
def pyStartsWith (s p : String) : Bool :=
  p.data.isPrefixOf s.data

/-- Python `str.endswith(p)`. -/
def pyEndsWith (s p : String) : Bool :=
  p.data.reverse.isPrefixOf s.data.reverse

/-- Python `str.split(sep)` for a one-character separator, on char lists:
splitting the empty string yields `[[]]`, and every separator occurrence
opens a new (possibly empty) segment. -/
def splitOnChar (c : Char) : List Char → List (List Char)
  | [] => [[]]
  | x :: xs =>
    if x = c then [] :: splitOnChar c xs
    else
      match splitOnChar c xs with
      | [] => [[x]]
      | y :: ys => (x :: y) :: ys

/-- Python `s.split(c)` as a list of strings. -/
def pySplit (s : String) (c : Char) : List String :=
  (splitOnChar c s.data).map String.mk

/-- Python `s.count(c)` for a single character `c`. -/
def charCount (s : String) (c : Char) : Nat :=
  s.data.count c

/-- A Python `bool` used as an `int` factor in arithmetic
(`True` is 1, `False` is 0). -/
def boolNat (b : Bool) : Nat :=
  if b then 1 else 0

/-- Python `'\n' * n`. -/
def nlRep (n : Nat) : String :=
  String.mk (List.replicate n '\n')

/-- Python string repetition `s * n`. -/
def strRep (s : String) (n : Nat) : String :=
  String.join (List.replicate n s)

/-- Python `string.split('\n').count('')`: the number of empty lines in the
newline-split of `s`. -/
def emptyLineCount (s : String) : Nat :=
  (pySplit s '\n').count ""

/-- Python `lst[-1]` for a list of strings (total, with `""` as the value at
call sites the Python code never reaches: every caller passes a non-empty
list). -/
def pyLast (l : List String) : String :=
  l.getLastD ""

/-- `unlinked_name` from tg2md.py: drop every square bracket from the name;
an absent (`None`) or empty name gives the empty string. -/
def unlinked_name (name : Option String) : String :=
  match name with
  | none => ""
  | some n =>
    if n = "" then ""
    else String.mk ((n.data.filter (fun c => c != '[')).filter (fun c => c != ']'))

/-- `text_format(string, fmt)` from tg2md.py: pick the wrapping template
(note the second branch repeats the condition `fmt == '```'` which the first
branch already covers, exactly as in the source, so it is unreachable), fill
it with the stripped text, then append
`'\n' * string.split('\n').count('') * string.endswith('\n')`. -/
def text_format (string : String) (fmt : String) : String :=
  let output :=
    if fmt = "*" ∨ fmt = "**" ∨ fmt = "***" ∨ fmt = "`" ∨ fmt = "```" then
      fmt ++ pyStrip string ++ fmt
    else if fmt = "```" then
      fmt ++ "\n" ++ pyStrip string ++ "\n" ++ fmt
    else
      "<" ++ fmt ++ ">" ++ pyStrip string ++ "</" ++ fmt ++ ">"
  output ++ nlRep (emptyLineCount string * boolNat (pyEndsWith string "\n"))

/-- The self-link test of tg2md.py, written inline twice in the source (in
`text_link_format` and in the `link` branch of `parse_text_object`):
the href starts with `https://t.me`, splitting by `/` yields more than 2
segments, and the second-to-last segment is in the alias list. -/
def linkIsSelf (link : String) (aliases : List String) : Bool :=
  pyStartsWith link "https://t.me" && decide (2 < (pySplit link '/').length) &&
  aliases.contains ((pySplit link '/').getD ((pySplit link '/').length - 2) "")

/-- `text_link_format(text, link, aliases)` from tg2md.py: a self-referential
link becomes a wiki link to its trailing segment, any other link becomes a
standard markdown link; the display text is stripped, and
`'\n' * text.count('\n') * text.endswith('\n')` is appended. -/
def text_link_format (text link : String) (aliases : List String) : String :=
  let href := if linkIsSelf link aliases then (pySplit link '/').getLastD "" else link
  let body :=
    if linkIsSelf link aliases then "[[" ++ href ++ "|" ++ pyStrip text ++ "]]"
    else "[" ++ pyStrip text ++ "](" ++ href ++ ")"
  body ++ nlRep (charCount text '\n' * boolNat (pyEndsWith text "\n"))

/-- A typed text run of the export (`href` is only meaningful for
`text_link` runs; the Python code only reads `obj['href']` there). -/
structure TextRun where
  type : String
  text : String
  href : String

/-- `parse_text_object(obj, aliases)` from tg2md.py.  The source is a chain of
`elif`s on `obj['type']`; a type outside the chain falls off the function,
which in Python returns `None`, embedded here as `none`.  The `email` branch
keeps the source's dead scheme-prefixing factor
`'https://' * (obj_type == 'link') * (1 - link.startswith('https://'))`. -/
def parse_text_object (obj : TextRun) (aliases : List String) : Option String :=
  if obj.type = "hashtag" then some obj.text
  else if obj.type = "text_link" then some (text_link_format obj.text obj.href aliases)
  else if obj.type = "link" then
    some (if linkIsSelf obj.text aliases then
            "[[" ++ (pySplit obj.text '/').getLastD "" ++ "]]"
          else obj.text)
  else if obj.type = "email" then
    some ("<" ++
      (strRep "https://"
          (boolNat (obj.type == "link") *
            (1 - boolNat (pyStartsWith (pyStrip obj.text) "https://"))) ++
        pyStrip obj.text) ++ ">")
  else if obj.type = "phone" then some obj.text
  else if obj.type = "italic" then some (text_format obj.text "*")
  else if obj.type = "bold" then some (text_format obj.text "**")
  else if obj.type = "code" then some (text_format obj.text "`")
  else if obj.type = "pre" then some (text_format obj.text "```")
  else if obj.type = "underline" then some (text_format obj.text "u")
  else if obj.type = "strikethrough" then some (text_format obj.text "s")
  else none

/-- An item of a rich-text `text` field: a plain string or a typed run. -/
inductive TextItem where
  | str (s : String)
  | run (r : TextRun)

/-- A post's `text` field: either a plain string or a list of items. -/
inductive PostText where
  | str (s : String)
  | items (l : List TextItem)

/-- Python `str(x)` applied to an optional string: `str(None)` is the
four-character string `"None"`. -/
def pyStrOpt : Option String → String
  | some s => s
  | none => "None"

/-- `parse_post_text(post, aliases)` from tg2md.py, on the post's `text`
field: a plain string is returned verbatim; a list is folded left-to-right,
appending plain strings verbatim and `str(parse_text_object(obj, aliases))`
for run objects. -/
def parse_post_text (text : PostText) (aliases : List String) : String :=
  match text with
  | .str s => s
  | .items l =>
    l.foldl (fun acc obj =>
      match obj with
      | .str s => acc ++ s
      | .run r => acc ++ pyStrOpt (parse_text_object r aliases)) ""

/-- A post record of the export.  Optional JSON keys become `Option` fields;
the Python code reads `post['photo']`, `post['file']` and
`post['reply_to_message_id']` only after an `in post` membership test, which
here becomes an `isSome` test. -/
structure Post where
  type : String
  id : Int
  date : String
  «from» : Option String
  text : PostText
  photo : Option String
  file : Option String
  reply_to_message_id : Option Int

/-- `parse_post_photo(post, photo_dir)` from tg2md.py: an image link built
from the last `/`-segment of the photo path, followed by a blank line.
`photo_dir` is accepted and unused, as in the source; the `photo` field is
present at every call site (guarded in `parse_post`). -/
def parse_post_photo (post : Post) (photo_dir : String) : String :=
  "![image](" ++ (pySplit (post.photo.getD "") '/').getLastD "" ++ ")\n\n"

/-- `parse_post_media(post, media_dir, aliases)` from tg2md.py: nothing for a
`"(File ..."` placeholder, otherwise a transcluding link to the last
`/`-segment of the file path preceded by one newline.  `media_dir` and
`aliases` are accepted and unused, as in the source; the `file` field is
present at every call site (guarded in `parse_post`). -/
def parse_post_media (post : Post) (media_dir : String) (aliases : List String) : String :=
  if pyStartsWith (post.file.getD "") "(File " then ""
  else "\n![[" ++ (pySplit (post.file.getD "") '/').getLastD "" ++ "]]"

/-- `parse_post_reply(post, aliases)` from tg2md.py: the reply header.  The
`reply_to_message_id` field is present at every call site (guarded in
`parse_post`). -/
def parse_post_reply (post : Post) (aliases : List String) : String :=
  "**" ++ unlinked_name post.«from» ++ " [replied](https://t.me/" ++ pyLast aliases ++
    "/" ++ toString post.id ++ ") to [[" ++ toString (post.reply_to_message_id.getD 0) ++
    "|post]]**\n![[" ++ toString (post.reply_to_message_id.getD 0) ++ "]]\n"

/-- `post_header(post, aliases)` from tg2md.py: the normal header. -/
def post_header (post : Post) (aliases : List String) : String :=
  "**" ++ unlinked_name post.«from» ++ " [wrote](https://t.me/" ++ pyLast aliases ++
    "/" ++ toString post.id ++ "):**\n"

/-- The body that `parse_post` appends after the chosen header: the optional
image, the assembled text, and the optional media reference. -/
def post_body (post : Post) (photo_dir media_dir : String) (aliases : List String) : String :=
  (if post.photo.isSome then parse_post_photo post photo_dir else "") ++
  parse_post_text post.text aliases ++
  (if post.file.isSome then parse_post_media post media_dir aliases else "")

/-- `parse_post(post, photo_dir, media_dir, aliases)` from tg2md.py: reply or
normal header (reply tested first), then image, text and media parts. -/
def parse_post (post : Post) (photo_dir media_dir : String) (aliases : List String) : String :=
  (if post.reply_to_message_id.isSome then parse_post_reply post aliases
   else post_header post aliases) ++
  post_body post photo_dir media_dir aliases

/-- The same post with its `file` field absent (for comparing renderings). -/
def removeFile (p : Post) : Post :=
  ⟨p.type, p.id, p.date, p.«from», p.text, p.photo, none, p.reply_to_message_id⟩

/-- `main`'s alias list: `alias = [data['id']]; if args.alias:
alias.append(args.alias)`.  The Python list holds the raw integer channel id;
it is only ever rendered through `str`, so it is embedded as its decimal
string.  An empty `--alias` argument is falsy and is not appended. -/
def build_alias (chanId : Int) (userAlias : String) : List String :=
  [toString chanId] ++ (if userAlias = "" then [] else [userAlias])

/-- `str(datetime.fromisoformat(post['date']))[0:7]`: the first seven
characters, i.e. the `YYYY-MM` part, which is the same in the ISO-8601 input
string and in `str` of the parsed datetime. -/
def monthOf (date : String) : String :=
  String.mk (date.data.take 7)

/-- The month labels printed by `main`'s loop: `lastmonth` threads through
the iteration, starting as `''`; a label is printed whenever a message
post's `YYYY-MM` differs from `lastmonth`. -/
def walkMonths (lastmonth : String) : List Post → List String
  | [] => []
  | p :: ps =>
    if p.type = "message" then
      if monthOf p.date ≠ lastmonth then monthOf p.date :: walkMonths (monthOf p.date) ps
      else walkMonths lastmonth ps
    else walkMonths lastmonth ps

/-- `main`'s console output trace: the
`print('Processing', len(raw_posts), 'posts in', alias[-1])` line (space
separated, counting every element of `data['messages']`), then each month
label as printed by the loop. -/
def walker_progress (chanId : Int) (userAlias : String) (posts : List Post) : List String :=
  ("Processing " ++ toString posts.length ++ " posts in " ++
      pyLast (build_alias chanId userAlias)) ::
    walkMonths "" posts

/-- Modelled from the spec: the eligible posts, those with `type ==
"message"` (spec §4.5); used to compare the printed total against the
claim's "eligible-post count". -/
def eligiblePosts (posts : List Post) : List Post :=
  posts.filter (fun p => decide (p.type = "message"))

/-- Modelled from the spec: the number of eligible posts. -/
def eligibleCount (posts : List Post) : Nat :=
  (eligiblePosts posts).length

/-- The `YYYY-MM` labels of the eligible posts, in order. -/
def eligibleMonths (posts : List Post) : List String :=
  (eligiblePosts posts).map (fun p => monthOf p.date)

/-- Spec-side reading of "report each newly entered year-month bucket once,
in encounter order": drop an element equal to the previously kept one. -/
def destutterFrom (last : String) : List String → List String
  | [] => []
  | x :: xs => if x = last then destutterFrom last xs else x :: destutterFrom x xs

/-- Spec-side adjacent-duplicate removal, keeping the first of each run. -/
def destutter : List String → List String
  | [] => []
  | x :: xs => x :: destutterFrom x xs

/-! ### Helper lemmas -/

/-- The head element surviving `dropWhile p` fails `p`. -/
theorem head?_dropWhile_false (p : Char → Bool) (l : List Char) (a : Char)
    (h : (l.dropWhile p).head? = some a) : p a = false := by
  induction l with
  | nil => simp at h
  | cons x xs ih =>
    rw [List.dropWhile_cons] at h
    by_cases hx : p x = true
    · exact ih (by simpa [hx] using h)
    · rw [if_neg hx] at h
      simp only [List.head?_cons, Option.some.injEq] at h
      subst h
      simpa using hx

/-- `dropWhile p` fixes a list whose head already fails `p`. -/
theorem dropWhile_of_head?_false (p : Char → Bool) (l : List Char)
    (h : ∀ a, l.head? = some a → p a = false) : l.dropWhile p = l := by
  cases l with
  | nil => rfl
  | cons x xs =>
    rw [List.dropWhile_cons, h x rfl]
    simp

/-- A non-empty `dropWhile p l` ends where `l` ends. -/
theorem getLast?_dropWhile (p : Char → Bool) (l : List Char)
    (h : l.dropWhile p ≠ []) : (l.dropWhile p).getLast? = l.getLast? := by
  induction l with
  | nil => simp at h
  | cons x xs ih =>
    rw [List.dropWhile_cons]
    by_cases hx : p x = true
    · rw [List.dropWhile_cons, if_pos hx] at h
      rw [if_pos hx, ih h]
      cases xs with
      | nil => simp [List.dropWhile] at h
      | cons y ys => simp [List.getLast?_cons_cons]
    · simp [hx]

/-- The first surviving character of a both-ends strip fails `p`. -/
theorem strip_head_false (p : Char → Bool) (l : List Char) (a : Char)
    (h : (((l.dropWhile p).reverse.dropWhile p).reverse).head? = some a) : p a = false := by
  rw [List.head?_reverse] at h
  by_cases hne : (l.dropWhile p).reverse.dropWhile p = []
  · rw [hne] at h
    simp at h
  · rw [getLast?_dropWhile p _ hne, List.getLast?_reverse] at h
    exact head?_dropWhile_false p _ a h

/-- The last surviving character of a both-ends strip fails `p`. -/
theorem strip_last_false (p : Char → Bool) (l : List Char) (a : Char)
    (h : (((l.dropWhile p).reverse.dropWhile p).reverse).getLast? = some a) : p a = false := by
  rw [List.getLast?_reverse] at h
  exact head?_dropWhile_false p _ a h

/-- A both-ends strip fixes a list whose two ends already fail `p`. -/
theorem strip_fix (p : Char → Bool) (m : List Char)
    (h1 : ∀ a, m.head? = some a → p a = false)
    (h2 : ∀ a, m.getLast? = some a → p a = false) :
    ((m.dropWhile p).reverse.dropWhile p).reverse = m := by
  rw [dropWhile_of_head?_false p m h1]
  rw [dropWhile_of_head?_false p m.reverse
    (fun a ha => h2 a (by rwa [List.head?_reverse] at ha))]
  exact List.reverse_reverse m

/-- Stripping is idempotent. -/
theorem pyStrip_idem (s : String) : pyStrip (pyStrip s) = pyStrip s := by
  apply String.ext
  exact strip_fix isPySpace _
    (fun a ha => strip_head_false isPySpace s.data a ha)
    (fun a ha => strip_last_false isPySpace s.data a ha)

/-- A stripped string never ends with a newline. -/
theorem pyStrip_no_trailing_nl (s : String) : pyEndsWith (pyStrip s) "\n" = false := by
  show ("\n".data.reverse.isPrefixOf (pyStrip s).data.reverse) = false
  cases hv : (pyStrip s).data.reverse with
  | nil => rfl
  | cons c v =>
    have hlast : (pyStrip s).data.getLast? = some c := by
      rw [← List.head?_reverse, hv]
      rfl
    have hc : isPySpace c = false := strip_last_false isPySpace s.data c hlast
    have hcne : ('\n' == c) = false := by
      cases hq : ('\n' == c)
      · rfl
      · exfalso
        rw [← eq_of_beq hq] at hc
        simp [isPySpace] at hc
    show (('\n' == c) && List.isPrefixOf [] v) = false
    rw [hcne]
    simp

/-- `nlRep 0` is the empty string. -/
theorem nlRep_zero : nlRep 0 = "" := rfl

/-! ### Claims -/

/-- C9: for every post whose `text` field is a plain string, the Post-Text
Assembler returns that string verbatim, character for character, with no
run-processing applied. -/
theorem plain_text_verbatim (s : String) (aliases : List String) :
    parse_post_text (.str s) aliases = s := rfl

/-- C2: evaluation of the code at the claim's input.  For the text-run of
type "pre" with text "code\n" the formatter returns "```code```\n" (inline
wrap of the stripped text plus one appended newline), not the fenced block
"```\ncode\n```" that the claim — and the source's own, unreachable,
`elif fmt == '```'` branch — call for. -/
theorem pre_fenced_block_bug :
    parse_text_object ⟨"pre", "code\n", ""⟩ [] = some "```code```\n" ∧
    text_format "code\n" "```" = "```code```\n" ∧
    ("```code```\n" : String) ≠ "```\ncode\n```" := by
  refine ⟨by decide, by decide, by decide⟩

/-- C3: evaluation of the code at the failing input.  A text run whose type
is outside the enumerated set makes `parse_text_object` return `none`
(Python `None`), and the assembler appends `str(None)`, the literal string
"None": the assembled text is "aNoneb", not the "ab" that the claim's
empty-contribution rule requires. -/
theorem unknown_run_emits_None :
    parse_text_object ⟨"spoiler", "x", ""⟩ [] = none ∧
    parse_post_text (.items [.str "a", .run ⟨"spoiler", "x", ""⟩, .str "b"]) [] = "aNoneb" ∧
    parse_post_text (.items [.str "a", .str "b"]) [] = "ab" ∧
    ("aNoneb" : String) ≠ "ab" := by
  refine ⟨rfl, by decide, by decide, by decide⟩

/-- C7: for every text-run of type email, the output is the stripped text
wrapped in angle brackets; the scheme-prefixing factor multiplies the
string "https://" by `(obj_type == 'link')`, which is 0 in this branch, so
"https://" is never added. -/
theorem email_autolink_no_scheme (t : String) (aliases : List String) :
    parse_text_object ⟨"email", t, ""⟩ aliases = some ("<" ++ pyStrip t ++ ">") := by
  have h : boolNat ("email" == "link") *
      (1 - boolNat (pyStartsWith (pyStrip t) "https://")) = 0 := Nat.zero_mul _
  show some ("<" ++ (strRep "https://" (boolNat ("email" == "link") *
      (1 - boolNat (pyStartsWith (pyStrip t) "https://"))) ++ pyStrip t) ++ ">") =
    some ("<" ++ pyStrip t ++ ">")
  rw [h]
  rfl

/-- C4: for every text-run of type italic, bold, code or pre, the formatter
output is the marker-wrapped stripped body followed by exactly
(number of empty lines in the newline-split of the text) ×
(1 if the text ends with a newline, else 0) appended newline characters. -/
theorem trailing_newline_heuristic (t : String) (aliases : List String) :
    parse_text_object ⟨"italic", t, ""⟩ aliases =
      some ("*" ++ pyStrip t ++ "*" ++
        nlRep (emptyLineCount t * boolNat (pyEndsWith t "\n"))) ∧
    parse_text_object ⟨"bold", t, ""⟩ aliases =
      some ("**" ++ pyStrip t ++ "**" ++
        nlRep (emptyLineCount t * boolNat (pyEndsWith t "\n"))) ∧
    parse_text_object ⟨"code", t, ""⟩ aliases =
      some ("`" ++ pyStrip t ++ "`" ++
        nlRep (emptyLineCount t * boolNat (pyEndsWith t "\n"))) ∧
    parse_text_object ⟨"pre", t, ""⟩ aliases =
      some ("```" ++ pyStrip t ++ "```" ++
        nlRep (emptyLineCount t * boolNat (pyEndsWith t "\n"))) :=
  ⟨rfl, rfl, rfl, rfl⟩

/-- C1 counterexample: with alias set containing "mychannel", href
"https://t.me/mychannel/42" and display text " post" (note the leading
space), the Link Resolver returns "[[42|post]]" — the display text is
stripped before substitution — and not the "[[42| post]]" that the claim's
verbatim template calls for. -/
theorem link_display_not_verbatim :
    text_link_format " post" "https://t.me/mychannel/42" ["mychannel"] = "[[42|post]]" ∧
    ("[[42|post]]" : String) ≠ "[[42| post]]" := by
  refine ⟨by decide, by decide⟩

/-- C1 (amended): when the href starts with "https://t.me", splits by "/"
into more than 2 segments, and the second-to-last segment is in the alias
set, the result is the wiki cross-reference on the trailing segment with the
STRIPPED display text; otherwise the standard external link with the
stripped display text; in both cases followed by one newline per newline
character of the display text when the display text ends with a newline. -/
theorem link_resolver_resolves (text href : String) (aliases : List String) :
    (linkIsSelf href aliases = true →
      text_link_format text href aliases =
        "[[" ++ (pySplit href '/').getLastD "" ++ "|" ++ pyStrip text ++ "]]" ++
          nlRep (charCount text '\n' * boolNat (pyEndsWith text "\n"))) ∧
    (linkIsSelf href aliases = false →
      text_link_format text href aliases =
        "[" ++ pyStrip text ++ "](" ++ href ++ ")" ++
          nlRep (charCount text '\n' * boolNat (pyEndsWith text "\n"))) := by
  constructor
  · intro h
    unfold text_link_format
    rw [h]
    rfl
  · intro h
    unfold text_link_format
    rw [h]
    rfl

/-- C1 witness: the two concrete examples of the claim, derived from the
amended theorem. -/
theorem link_resolver_examples :
    text_link_format "post" "https://t.me/mychannel/42" ["mychannel"] = "[[42|post]]" ∧
    text_link_format "post" "https://example.com/x" ["mychannel"] =
      "[post](https://example.com/x)" := by
  constructor
  · have h := (link_resolver_resolves "post" "https://t.me/mychannel/42"
      ["mychannel"]).1 (by decide)
    rw [h]
    decide
  · have h := (link_resolver_resolves "post" "https://example.com/x"
      ["mychannel"]).2 (by decide)
    rw [h]
    decide

/-- C10: leading and trailing whitespace inside a formatted run is not
preserved: for runs of type italic, bold, code, pre, underline and
strikethrough the text emitted between the wrapping markers/tags is the
run's text with leading and trailing whitespace removed (Python
`str.strip()`), and the output of the Link Resolver depends on the display
text only through its stripped form (plus the appended-newline count). -/
theorem formatted_runs_strip_whitespace (t href : String) (aliases : List String) :
    parse_text_object ⟨"italic", t, ""⟩ aliases =
      some ("*" ++ pyStrip t ++ "*" ++
        nlRep (emptyLineCount t * boolNat (pyEndsWith t "\n"))) ∧
    parse_text_object ⟨"bold", t, ""⟩ aliases =
      some ("**" ++ pyStrip t ++ "**" ++
        nlRep (emptyLineCount t * boolNat (pyEndsWith t "\n"))) ∧
    parse_text_object ⟨"code", t, ""⟩ aliases =
      some ("`" ++ pyStrip t ++ "`" ++
        nlRep (emptyLineCount t * boolNat (pyEndsWith t "\n"))) ∧
    parse_text_object ⟨"pre", t, ""⟩ aliases =
      some ("```" ++ pyStrip t ++ "```" ++
        nlRep (emptyLineCount t * boolNat (pyEndsWith t "\n"))) ∧
    parse_text_object ⟨"underline", t, ""⟩ aliases =
      some ("<u>" ++ pyStrip t ++ "</u>" ++
        nlRep (emptyLineCount t * boolNat (pyEndsWith t "\n"))) ∧
    parse_text_object ⟨"strikethrough", t, ""⟩ aliases =
      some ("<s>" ++ pyStrip t ++ "</s>" ++
        nlRep (emptyLineCount t * boolNat (pyEndsWith t "\n"))) ∧
    text_link_format t href aliases =
      text_link_format (pyStrip t) href aliases ++
        nlRep (charCount t '\n' * boolNat (pyEndsWith t "\n")) := by
  refine ⟨rfl, rfl, rfl, rfl, ?_, ?_, ?_⟩
  · show some ("<" ++ "u" ++ ">" ++ pyStrip t ++ "</" ++ "u" ++ ">" ++
        nlRep (emptyLineCount t * boolNat (pyEndsWith t "\n"))) = _
    apply congrArg
    apply String.ext
    simp
  · show some ("<" ++ "s" ++ ">" ++ pyStrip t ++ "</" ++ "s" ++ ">" ++
        nlRep (emptyLineCount t * boolNat (pyEndsWith t "\n"))) = _
    apply congrArg
    apply String.ext
    simp
  · unfold text_link_format
    rw [pyStrip_idem, pyStrip_no_trailing_nl]
    show _ = (_ ++ nlRep (charCount (pyStrip t) '\n' * boolNat false)) ++ _
    rw [show boolNat false = 0 from rfl, Nat.mul_zero, nlRep_zero, String.append_empty]

/-- C5: exactly one header is emitted per post, the reply test coming
first: a post carrying `reply_to_message_id` gets the bold
"{author} replied … to [[{parent}|post]]" header followed by the
transclusion of the parent and a newline; any other post gets the bold
"{author} wrote …:" header followed by a newline; `{alias}` is the last
element of the alias list, which is the user-supplied alias whenever one
was given, and `{author}` is the `from` field with square brackets
stripped. -/
theorem header_selection (p : Post) (photo_dir media_dir : String) (aliases : List String) :
    (∀ orig, p.reply_to_message_id = some orig →
      parse_post p photo_dir media_dir aliases =
        "**" ++ unlinked_name p.«from» ++ " [replied](https://t.me/" ++ pyLast aliases ++
          "/" ++ toString p.id ++ ") to [[" ++ toString orig ++ "|post]]**\n![[" ++
          toString orig ++ "]]\n" ++ post_body p photo_dir media_dir aliases) ∧
    (p.reply_to_message_id = none →
      parse_post p photo_dir media_dir aliases =
        "**" ++ unlinked_name p.«from» ++ " [wrote](https://t.me/" ++ pyLast aliases ++
          "/" ++ toString p.id ++ "):**\n" ++ post_body p photo_dir media_dir aliases) ∧
    (∀ chanId userAlias, userAlias ≠ "" →
      pyLast (build_alias chanId userAlias) = userAlias) := by
  refine ⟨?_, ?_, ?_⟩
  · intro orig h
    unfold parse_post parse_post_reply
    rw [h]
    rfl
  · intro h
    unfold parse_post post_header
    rw [h]
    rfl
  · intro chanId userAlias h
    unfold build_alias pyLast
    rw [if_neg h]
    rfl

/-- C5 witness: a reply post and a normal post rendered concretely, and the
alias priority at a concrete channel id and user alias. -/
theorem header_selection_witness :
    parse_post ⟨"message", 5, "2022-01-05T10:00:00", some "[ann]", .str "hello",
        none, none, some 7⟩ "photos" "files" ["9", "chan"] =
      "**ann [replied](https://t.me/chan/5) to [[7|post]]**\n![[7]]\nhello" ∧
    parse_post ⟨"message", 6, "2022-01-05T11:00:00", some "bob", .str "Hello",
        none, none, none⟩ "photos" "files" ["9", "chan"] =
      "**bob [wrote](https://t.me/chan/6):**\nHello" ∧
    pyLast (build_alias 9 "chan") = "chan" := by
  refine ⟨?_, ?_, ?_⟩
  · have h := (header_selection ⟨"message", 5, "2022-01-05T10:00:00", some "[ann]",
      .str "hello", none, none, some 7⟩ "photos" "files" ["9", "chan"]).1 7 rfl
    rw [h]
    decide
  · have h := (header_selection ⟨"message", 6, "2022-01-05T11:00:00", some "bob",
      .str "Hello", none, none, none⟩ "photos" "files" ["9", "chan"]).2.1 rfl
    rw [h]
    decide
  · exact (header_selection ⟨"message", 6, "2022-01-05T11:00:00", some "bob",
      .str "Hello", none, none, none⟩ "photos" "files" ["9", "chan"]).2.2 9 "chan"
      (by decide)

/-- The month-label trace of the loop equals adjacent-duplicate removal,
seeded with the running `lastmonth`, over the eligible posts' months. -/
theorem walkMonths_eq (last : String) (ps : List Post) :
    walkMonths last ps = destutterFrom last (eligibleMonths ps) := by
  induction ps generalizing last with
  | nil => rfl
  | cons p ps ih =>
    by_cases h : p.type = "message"
    · by_cases h2 : monthOf p.date = last
      · simp [walkMonths, eligibleMonths, eligiblePosts, destutterFrom, h, h2, ih]
      · simp [walkMonths, eligibleMonths, eligiblePosts, destutterFrom, h, h2, ih]
    · simp [walkMonths, eligibleMonths, eligiblePosts, h, ih]

/-- C6 counterexample: an export whose messages list holds one service post
and one message post.  The walker's first progress line says "Processing 2
posts" — the length of the whole list — although the eligible-post count of
the claim (posts with type == "message") is 1. -/
theorem progress_total_counts_all_posts :
    walker_progress 99 "chan"
        [⟨"service", 1, "2022-01-05T10:00:00", some "u", .str "", none, none, none⟩,
         ⟨"message", 2, "2022-01-06T10:00:00", some "u", .str "hi", none, none, none⟩] =
      ["Processing 2 posts in chan", "2022-01"] ∧
    eligibleCount
        [⟨"service", 1, "2022-01-05T10:00:00", some "u", .str "", none, none, none⟩,
         ⟨"message", 2, "2022-01-06T10:00:00", some "u", .str "hi", none, none, none⟩] = 1 ∧
    ("Processing 2 posts in chan" : String) ≠ "Processing 1 posts in chan" := by
  refine ⟨by decide, by decide, by decide⟩

/-- C6 (amended): the walker reports "Processing N posts in {alias}" exactly
once at the start, where N is the length of the WHOLE messages list
(non-"message" posts included), and then reports each newly entered
year-month bucket of the message posts exactly once per entry, in encounter
order (stated for eligible months that are non-empty strings, which every
well-formed date yields). -/
theorem walker_progress_trace (chanId : Int) (userAlias : String) (posts : List Post)
    (h : ∀ m ∈ eligibleMonths posts, m ≠ "") :
    walker_progress chanId userAlias posts =
      ("Processing " ++ toString posts.length ++ " posts in " ++
          pyLast (build_alias chanId userAlias)) ::
        destutter (eligibleMonths posts) := by
  unfold walker_progress
  congr 1
  rw [walkMonths_eq]
  cases hm : eligibleMonths posts with
  | nil => rfl
  | cons m rest =>
    have hne : m ≠ "" := h m (by rw [hm]; exact List.mem_cons_self m rest)
    simp only [destutterFrom, destutter]
    rw [if_neg hne]

/-- C6 witness: two message posts dated in different months: each month
label is printed exactly once, in encounter order, after the total line. -/
theorem walker_progress_example :
    walker_progress 99 "chan"
        [⟨"message", 2, "2022-01-06T10:00:00", some "u", .str "hi", none, none, none⟩,
         ⟨"message", 3, "2022-02-06T10:00:00", some "u", .str "hi", none, none, none⟩] =
      ["Processing 2 posts in chan", "2022-01", "2022-02"] := by
  have h := walker_progress_trace 99 "chan"
    [⟨"message", 2, "2022-01-06T10:00:00", some "u", .str "hi", none, none, none⟩,
     ⟨"message", 3, "2022-02-06T10:00:00", some "u", .str "hi", none, none, none⟩]
    (by decide)
  rw [h]
  decide

/-- C8 counterexample: a post with text "hi" and file "a/b.pdf".  The
rendered post ends "…hi\n![[b.pdf]]": the linked-file reference is preceded
by a single newline, not by a blank line as the claim states. -/
theorem file_reference_single_newline :
    parse_post ⟨"message", 1, "2022-01-05T10:00:00", some "u", .str "hi",
        none, some "a/b.pdf", none⟩ "photos" "files" ["c"] =
      "**u [wrote](https://t.me/c/1):**\nhi\n![[b.pdf]]" ∧
    parse_post ⟨"message", 1, "2022-01-05T10:00:00", some "u", .str "hi",
        none, some "a/b.pdf", none⟩ "photos" "files" ["c"] ≠
      parse_post (removeFile ⟨"message", 1, "2022-01-05T10:00:00", some "u", .str "hi",
        none, some "a/b.pdf", none⟩) "photos" "files" ["c"] ++ "\n\n![[b.pdf]]" := by
  refine ⟨by decide, by decide⟩

/-- C8 (amended): a `file` value beginning with the "(File " sentinel emits
nothing (the rendered post equals the post rendered without the file
field); otherwise a linked-file reference to the last path segment is
appended, preceded by a single newline (a line break, not a blank line). -/
theorem file_field_handling (p : Post) (photo_dir media_dir : String) (aliases : List String) :
    (∀ f, p.file = some f → pyStartsWith f "(File " = true →
      parse_post p photo_dir media_dir aliases =
        parse_post (removeFile p) photo_dir media_dir aliases) ∧
    (∀ f, p.file = some f → pyStartsWith f "(File " = false →
      parse_post p photo_dir media_dir aliases =
        parse_post (removeFile p) photo_dir media_dir aliases ++
          "\n![[" ++ (pySplit f '/').getLastD "" ++ "]]") := by
  constructor
  · intro f hf hs
    simp only [parse_post, post_body, parse_post_media, parse_post_reply, post_header,
      parse_post_photo, removeFile, hf, hs, Option.getD_some, Option.isSome_some,
      Option.isSome_none, ite_true, ite_false, String.append_empty]
    simp
  · intro f hf hs
    simp only [parse_post, post_body, parse_post_media, parse_post_reply, post_header,
      parse_post_photo, removeFile, hf, hs, Option.getD_some, Option.isSome_some,
      Option.isSome_none, ite_true, ite_false, String.append_empty, String.append_assoc]
    simp

/-- C8 witness: the sentinel case and the regular case of the amended
theorem at concrete posts. -/
theorem file_field_handling_example :
    parse_post ⟨"message", 2, "2022-01-05T10:00:00", some "u", .str "hi", none,
        some "(File not included. Change data exporting settings to download.)", none⟩
      "photos" "files" ["c"] =
      parse_post (removeFile ⟨"message", 2, "2022-01-05T10:00:00", some "u", .str "hi", none,
        some "(File not included. Change data exporting settings to download.)", none⟩)
      "photos" "files" ["c"] ∧
    parse_post ⟨"message", 1, "2022-01-05T10:00:00", some "u", .str "hi",
        none, some "a/b.pdf", none⟩ "photos" "files" ["c"] =
      parse_post (removeFile ⟨"message", 1, "2022-01-05T10:00:00", some "u", .str "hi",
        none, some "a/b.pdf", none⟩) "photos" "files" ["c"] ++ "\n![[b.pdf]]" := by
  constructor
  · exact (file_field_handling ⟨"message", 2, "2022-01-05T10:00:00", some "u", .str "hi",
      none, some "(File not included. Change data exporting settings to download.)", none⟩
      "photos" "files" ["c"]).1 _ rfl (by decide)
  · have h := (file_field_handling ⟨"message", 1, "2022-01-05T10:00:00", some "u",
      .str "hi", none, some "a/b.pdf", none⟩ "photos" "files" ["c"]).2 "a/b.pdf" rfl
      (by decide)
    rw [h]
    decide
